import Mathlib

/-!
Shallow embedding of the double-entry bookkeeping core of the
Financial_agent repository (`utility_functions/utilities.py`).

Monetary values (Python `Decimal`) are modelled as exact rationals `ℚ`:
every arithmetic operation the code performs on them (addition,
subtraction, multiplication, division by 100) is exact in `Decimal`
for the magnitudes the system handles, and `ℚ` reproduces it exactly.
Database tables are lists of records; dates are day numbers `Nat`.
Each mutating function wraps its work in `BEGIN ... commit/rollback`,
so a raised error leaves the committed database unchanged: operations
are modelled as functions returning `Except OpError DB`, where the
error branch carries no new state (the caller keeps the old `DB`).
-/

namespace FinAgent

/-- Error kinds of the operations, matching the distinct failure paths
(raised exceptions and early-rollback returns) of the Python code. -/
inductive OpError where
  | validation
  | notFound
  | integrity
  | unbalanced
  | alreadySettled
  | insufficientPayment
  | cannotVoidSettled
deriving Repr, DecidableEq

/-- A row of the ChartOfAccounts table. -/
structure Account where
  accountId : Nat
  accountNumber : String
  accountName : String
  balanceType : String
  isActive : Bool
deriving Repr, DecidableEq

/-- A row of the GeneralLedger table (append-only, immutable once written). -/
structure GLLine where
  accountId : Nat
  debit : ℚ
  credit : ℚ
  entryType : String
  reference : String
  entryDate : Nat
  createdBy : Nat
  memo : String
deriving Repr, DecidableEq

/-- One element of the `entries` list passed to `_generate_gl_entries`:
the tuple `(account_id, debit_amount, credit_amount, description)`. -/
structure EntrySpec where
  accountId : Nat
  debit : ℚ
  credit : ℚ
  memo : String
deriving Repr, DecidableEq

/-- `total_debit` accumulated by `_generate_gl_entries`. -/
def entriesDebit (es : List EntrySpec) : ℚ := (es.map (·.debit)).sum

/-- `total_credit` accumulated by `_generate_gl_entries`. -/
def entriesCredit (es : List EntrySpec) : ℚ := (es.map (·.credit)).sum

/-- The GeneralLedger rows inserted by `_generate_gl_entries`: every row
of a batch carries the same entry type, reference string, entry date
(SQL `DATE('now')` at posting time) and creator. -/
def mkLines (es : List EntrySpec) (entryType reference : String)
    (today createdBy : Nat) : List GLLine :=
  es.map (fun e =>
    ⟨e.accountId, e.debit, e.credit, entryType, reference, today, createdBy, e.memo⟩)

/-- `_generate_gl_entries` as observed through its caller's transaction:
the function inserts the rows and then checks the balance; the `raise`
on imbalance triggers the caller's `rollback`, so the committed ledger
gains the batch exactly when total debits equal total credits. -/
def generate_gl_entries (gl : List GLLine) (es : List EntrySpec)
    (createdBy : Nat) (entryType reference : String) (today : Nat) :
    Except OpError (List GLLine) :=
  if entriesDebit es = entriesCredit es then
    .ok (gl ++ mkLines es entryType reference today createdBy)
  else .error .unbalanced

/-- The ledger a caller of the posting engine ends up with: the new rows
on success, the untouched ledger on rollback. -/
def committedGL (gl : List GLLine) (r : Except OpError (List GLLine)) :
    List GLLine :=
  match r with
  | .ok g => g
  | .error _ => gl

/-- The SQL filter `EntryDate <= report_date` (no filter when the report
date is absent). -/
def dateOk (asOf : Option Nat) (d : Nat) : Bool :=
  match asOf with
  | none => true
  | some cutoff => d ≤ cutoff

/-- The ledger rows surviving the optional `EntryDate <= ?` cutoff. -/
def glAsOf (gl : List GLLine) (asOf : Option Nat) : List GLLine :=
  gl.filter (fun l => dateOk asOf l.entryDate)

/-- The rows `WHERE AccountID = ? [AND EntryDate <= ?]`. -/
def linesFor (gl : List GLLine) (aid : Nat) (asOf : Option Nat) : List GLLine :=
  (glAsOf gl asOf).filter (fun l => l.accountId == aid)

/-- `SUM(DebitAmount)` for one account (0 for the empty set, as the code
maps SQL NULL to `Decimal('0.00')`). -/
def debitSum (gl : List GLLine) (aid : Nat) (asOf : Option Nat) : ℚ :=
  ((linesFor gl aid asOf).map (·.debit)).sum

/-- `SUM(CreditAmount)` for one account. -/
def creditSum (gl : List GLLine) (aid : Nat) (asOf : Option Nat) : ℚ :=
  ((linesFor gl aid asOf).map (·.credit)).sum

/-- Signed debit-minus-credit of one ledger row. -/
def lineNet (l : GLLine) : ℚ := l.debit - l.credit

/-- Net debit-minus-credit of the rows of one account in a row list. -/
def netSum (ls : List GLLine) (aid : Nat) : ℚ :=
  ((ls.filter (fun l => l.accountId == aid)).map lineNet).sum

/-- The `(Debit, Credit)` columns `generate_trial_balance` produces for
one account: the polarity-signed balance goes to the account's own
column when positive and, in the contra situation, its absolute value
goes to the opposite column. -/
def tbCols (gl : List GLLine) (asOf : Option Nat) (a : Account) : ℚ × ℚ :=
  let d := debitSum gl a.accountId asOf
  let c := creditSum gl a.accountId asOf
  let balance :=
    if a.balanceType = "Debit" then d - c
    else if a.balanceType = "Credit" then c - d
    else d - c
  if 0 < balance then
    if a.balanceType = "Debit" then (balance, 0) else (0, balance)
  else if balance < 0 then
    if a.balanceType = "Debit" then (0, -balance) else (-balance, 0)
  else (0, 0)

/-- Result shape of `generate_trial_balance`.  The SQL orders the account
rows by `AccountNumber`; the order affects only the presentation list,
never the two totals, so the chart's own order is kept here. -/
structure TrialBalance where
  rows : List (Nat × ℚ × ℚ)
  totalDebit : ℚ
  totalCredit : ℚ
deriving Repr, DecidableEq

/-- `generate_trial_balance`: for every active chart account, compute the
as-of balance and accumulate the two totals. -/
def generate_trial_balance (accounts : List Account) (gl : List GLLine)
    (asOf : Option Nat) : TrialBalance :=
  let act := accounts.filter (·.isActive)
  { rows := act.map (fun a => (a.accountId, tbCols gl asOf a))
    totalDebit := (act.map (fun a => (tbCols gl asOf a).1)).sum
    totalCredit := (act.map (fun a => (tbCols gl asOf a).2)).sum }

/-- Ledger states reachable from an empty GeneralLedger by successful
posting operations: every commit of the repository goes through
`_generate_gl_entries`, which rolls the transaction back unless the
batch balances, and stamps every row of a batch with the same
`DATE('now')` entry date. -/
inductive ReachableGL : List GLLine → Prop
  | nil : ReachableGL []
  | post (gl : List GLLine) (es : List EntrySpec) (et ref : String)
      (today createdBy : Nat) (h : ReachableGL gl)
      (hbal : entriesDebit es = entriesCredit es) :
      ReachableGL (gl ++ mkLines es et ref today createdBy)

/-! ### The database state and the operations -/

/-- A row of the BankAccounts table: the denormalized cash balance. -/
structure BankAccount where
  bankAccountId : Nat
  currentBalance : ℚ
deriving Repr, DecidableEq

/-- A row of the Invoices table.  `Balance` is a real stored column for
invoices (inserted at creation, updated by payment application and void). -/
structure Invoice where
  invoiceId : Nat
  invoiceNumber : String
  customerId : Nat
  invoiceDate : Nat
  dueDate : Nat
  totalAmount : ℚ
  paidAmount : ℚ
  balance : ℚ
  status : String
deriving Repr, DecidableEq

/-- A row of the InvoiceItems table. -/
structure InvoiceItem where
  invoiceId : Nat
  description : String
  quantity : ℚ
  unitPrice : ℚ
  taxRate : ℚ
  taxAmount : ℚ
  lineTotal : ℚ
  accountId : Nat
deriving Repr, DecidableEq

/-- A row of the Bills table.  Unlike Invoices, Bills has no stored
balance: the code inserts and updates only `TotalAmount`, `PaidAmount`
and `Status` and reads `Balance` as a generated column. -/
structure Bill where
  billId : Nat
  billNumber : String
  vendorId : Nat
  billDate : Nat
  dueDate : Nat
  totalAmount : ℚ
  paidAmount : ℚ
  status : String
deriving Repr, DecidableEq

/-- Modelled from the spec: the Bills table's generated `Balance` column.
The SQL schema script that defines it is not part of src/ (the tests say
"run the SQL script first"); spec section 3 defines the derived balance
of a subledger document as "Balance = Total − Paid". -/
def Bill.balance (b : Bill) : ℚ := b.totalAmount - b.paidAmount

/-- A row of CustomerPayments or VendorPayments (symmetric shapes). -/
structure Payment where
  paymentId : Nat
  partyId : Nat
  paymentDate : Nat
  amount : ℚ
  method : String
  reference : String
  bankAccountId : Nat
deriving Repr, DecidableEq

/-- A row of the CashTransactions table. -/
structure CashTx where
  cashTransactionId : Nat
  transactionDate : Nat
  bankAccountId : Nat
  txType : String
  amount : ℚ
  reference : String
  relatedAccountId : Nat
deriving Repr, DecidableEq

/-- The whole persisted state the bookkeeping core touches. -/
structure DB where
  accounts : List Account
  gl : List GLLine
  banks : List BankAccount
  invoices : List Invoice
  invoiceItems : List InvoiceItem
  bills : List Bill
  custPayments : List Payment
  vendPayments : List Payment
  cashTxs : List CashTx
deriving Repr, DecidableEq

def emptyDB : DB := ⟨[], [], [], [], [], [], [], [], []⟩

/-- `SELECT ... WHERE BankAccountID = ?` (first row). -/
def findBank (db : DB) (bid : Nat) : Option BankAccount :=
  db.banks.find? (fun b => b.bankAccountId == bid)

/-- `SELECT ... WHERE AccountID = ?` on ChartOfAccounts (first row). -/
def findAccount (db : DB) (aid : Nat) : Option Account :=
  db.accounts.find? (fun a => a.accountId == aid)

/-- `SELECT ... WHERE InvoiceID = ?` (first row). -/
def findInvoice (db : DB) (iid : Nat) : Option Invoice :=
  db.invoices.find? (fun i => i.invoiceId == iid)

/-- `SELECT ... WHERE BillID = ?` (first row). -/
def findBill (db : DB) (bid : Nat) : Option Bill :=
  db.bills.find? (fun b => b.billId == bid)

/-- `SELECT Amount FROM CustomerPayments WHERE PaymentID = ?`. -/
def findCustPayment (db : DB) (pid : Nat) : Option Payment :=
  db.custPayments.find? (fun p => p.paymentId == pid)

/-- `SELECT Amount FROM VendorPayments WHERE PaymentID = ?`. -/
def findVendPayment (db : DB) (pid : Nat) : Option Payment :=
  db.vendPayments.find? (fun p => p.paymentId == pid)

/-- `view_bank_account_balance`: the cached balance, `0.00` when the row
is absent. -/
def view_bank_account_balance (db : DB) (bid : Nat) : ℚ :=
  match findBank db bid with
  | some b => b.currentBalance
  | none => 0

/-- `view_gl_account_balance`: derived ledger balance honoring the
account's normal-balance polarity; an unknown account yields zero with
a warning, and an unknown polarity falls back to the debit convention. -/
def view_gl_account_balance (db : DB) (aid : Nat) : ℚ :=
  match findAccount db aid with
  | none => 0
  | some a =>
    let d := debitSum db.gl aid none
    let c := creditSum db.gl aid none
    if a.balanceType = "Debit" then d - c
    else if a.balanceType = "Credit" then c - d
    else d - c

/-- `UPDATE BankAccounts SET CurrentBalance = CurrentBalance + ? WHERE
BankAccountID = ?` (the code's decrease uses `- ?`, here `delta < 0`);
a missing id simply updates no row. -/
def bankAdd (banks : List BankAccount) (bid : Nat) (delta : ℚ) :
    List BankAccount :=
  banks.map (fun b =>
    if b.bankAccountId == bid then
      { b with currentBalance := b.currentBalance + delta }
    else b)

/-- The committed database after an operation: the new state on success,
the old one after a rollback. -/
def resultState (db : DB) (r : Except OpError DB) : DB :=
  match r with
  | .ok db2 => db2
  | .error _ => db

/-- `record_simple_cash_receipt`. -/
def record_simple_cash_receipt (db : DB) (txDate : Nat) (amount : ℚ)
    (description : String) (bankAccountId cashAccountId incomeAccountId
    createdBy : Nat) (reference : String) (today : Nat) :
    Except OpError DB :=
  if amount ≤ 0 then .error .validation
  else
    let txId := db.cashTxs.length + 1
    match generate_gl_entries db.gl
        [⟨cashAccountId, amount, 0, "Cash Receipt: " ++ description⟩,
         ⟨incomeAccountId, 0, amount, "Cash Receipt: " ++ description⟩]
        createdBy "CashReceipt" ("CashTransID:" ++ toString txId) today with
    | .error e => .error e
    | .ok gl2 =>
      .ok { db with
        cashTxs := db.cashTxs
          ++ [⟨txId, txDate, bankAccountId, "Deposit", amount, reference,
               incomeAccountId⟩]
        banks := bankAdd db.banks bankAccountId amount
        gl := gl2 }

/-- `record_simple_cash_disbursement`. -/
def record_simple_cash_disbursement (db : DB) (txDate : Nat) (amount : ℚ)
    (description : String) (bankAccountId cashAccountId expenseAccountId
    createdBy : Nat) (reference : String) (today : Nat) :
    Except OpError DB :=
  if amount ≤ 0 then .error .validation
  else
    let txId := db.cashTxs.length + 1
    match generate_gl_entries db.gl
        [⟨expenseAccountId, amount, 0, "Cash Disbursement: " ++ description⟩,
         ⟨cashAccountId, 0, amount, "Cash Disbursement: " ++ description⟩]
        createdBy "CashDisbursement" ("CashTransID:" ++ toString txId) today with
    | .error e => .error e
    | .ok gl2 =>
      .ok { db with
        cashTxs := db.cashTxs
          ++ [⟨txId, txDate, bankAccountId, "Withdrawal", amount, reference,
               expenseAccountId⟩]
        banks := bankAdd db.banks bankAccountId (-amount)
        gl := gl2 }

/-- `post_simple_manual_journal_entry`. -/
def post_simple_manual_journal_entry (db : DB) (entryDate : Nat)
    (description : String) (debitAccountId creditAccountId : Nat)
    (amount : ℚ) (createdBy : Nat) (reference : String) (today : Nat) :
    Except OpError DB :=
  if amount ≤ 0 then .error .validation
  else if debitAccountId = creditAccountId then .error .validation
  else
    match generate_gl_entries db.gl
        [⟨debitAccountId, amount, 0, description⟩,
         ⟨creditAccountId, 0, amount, description⟩]
        createdBy "ManualJournal" reference today with
    | .error e => .error e
    | .ok gl2 => .ok { db with gl := gl2 }

/-- `record_bank_transfer`. -/
def record_bank_transfer (db : DB) (txDate : Nat) (amount : ℚ)
    (srcBank srcCash tgtBank tgtCash : Nat) (description : String)
    (createdBy : Nat) (reference : String) (today : Nat) :
    Except OpError DB :=
  if amount ≤ 0 then .error .validation
  else if srcBank = tgtBank then .error .validation
  else if srcCash = tgtCash then .error .validation
  else
    let srcTxId := db.cashTxs.length + 1
    let tgtTxId := db.cashTxs.length + 2
    match generate_gl_entries db.gl
        [⟨tgtCash, amount, 0, "Bank Transfer: " ++ description⟩,
         ⟨srcCash, 0, amount, "Bank Transfer: " ++ description⟩]
        createdBy "BankTransfer"
        ("Transfer IDs:" ++ toString srcTxId ++ "," ++ toString tgtTxId)
        today with
    | .error e => .error e
    | .ok gl2 =>
      .ok { db with
        cashTxs := db.cashTxs
          ++ [⟨srcTxId, txDate, srcBank, "Transfer", amount, reference,
               tgtCash⟩,
              ⟨tgtTxId, txDate, tgtBank, "Transfer", amount, reference,
               srcCash⟩]
        banks := bankAdd (bankAdd db.banks srcBank (-amount)) tgtBank amount
        gl := gl2 }

/-- `record_simple_customer_payment` (Dr cash, Cr AR, bank increase). -/
def record_simple_customer_payment (db : DB) (customerId payDate : Nat)
    (amount : ℚ) (method : String) (bankAccountId cashAccountId
    arAccountId createdBy : Nat) (reference : String) (today : Nat) :
    Except OpError DB :=
  if amount ≤ 0 then .error .validation
  else
    let pid := db.custPayments.length + 1
    match generate_gl_entries db.gl
        [⟨cashAccountId, amount, 0, "Customer Payment " ++ reference⟩,
         ⟨arAccountId, 0, amount, "Customer Payment " ++ reference⟩]
        createdBy "CustomerPayment" ("CustPmtID:" ++ toString pid) today with
    | .error e => .error e
    | .ok gl2 =>
      .ok { db with
        custPayments := db.custPayments
          ++ [⟨pid, customerId, payDate, amount, method, reference,
               bankAccountId⟩]
        banks := bankAdd db.banks bankAccountId amount
        gl := gl2 }

/-- `record_simple_vendor_payment` (Dr AP, Cr cash, bank decrease). -/
def record_simple_vendor_payment (db : DB) (vendorId payDate : Nat)
    (amount : ℚ) (method : String) (bankAccountId cashAccountId
    apAccountId createdBy : Nat) (reference : String) (today : Nat) :
    Except OpError DB :=
  if amount ≤ 0 then .error .validation
  else
    let pid := db.vendPayments.length + 1
    match generate_gl_entries db.gl
        [⟨apAccountId, amount, 0, "Vendor Payment " ++ reference⟩,
         ⟨cashAccountId, 0, amount, "Vendor Payment " ++ reference⟩]
        createdBy "VendorPayment" ("VendPmtID:" ++ toString pid) today with
    | .error e => .error e
    | .ok gl2 =>
      .ok { db with
        vendPayments := db.vendPayments
          ++ [⟨pid, vendorId, payDate, amount, method, reference,
               bankAccountId⟩]
        banks := bankAdd db.banks bankAccountId (-amount)
        gl := gl2 }

/-- The `f"INV-{next_num:04d}"` formatting. -/
def pad4 (n : Nat) : String :=
  if n < 10 then "000" ++ toString n
  else if n < 100 then "00" ++ toString n
  else if n < 1000 then "0" ++ toString n
  else toString n

/-- The `MAX(CAST(SUBSTR(InvoiceNumber, 5) AS INTEGER)) ... LIKE 'INV-%'`
scan used when no invoice number is supplied. -/
def genInvoiceNumber (invoices : List Invoice) : String :=
  let nums := invoices.filterMap (fun i =>
    if i.invoiceNumber.startsWith "INV-" then (i.invoiceNumber.drop 4).toNat?
    else none)
  "INV-" ++ pad4 (nums.foldr max 0 + 1)

/-- `create_simple_sales_invoice`: validation, total computation, header
and item insert (unique invoice number), and the Dr AR / Cr Revenue
batch, all in one transaction. -/
def create_simple_sales_invoice (db : DB) (customerId invoiceDate
    dueDate : Nat) (itemDescription : String) (quantity unitPrice : ℚ)
    (revenueAccountId arAccountId createdBy : Nat)
    (invoiceNumberOpt : Option String) (taxRate : ℚ) (today : Nat) :
    Except OpError DB :=
  if quantity ≤ 0 ∨ unitPrice < 0 ∨ taxRate < 0 then .error .validation
  else
    let lineSubtotal := quantity * unitPrice
    let taxAmount := lineSubtotal * (taxRate / 100)
    let lineTotal := lineSubtotal + taxAmount
    let totalAmount := lineTotal
    let number :=
      match invoiceNumberOpt with
      | some s => s
      | none => genInvoiceNumber db.invoices
    if db.invoices.any (fun i => i.invoiceNumber == number) then
      .error .integrity
    else
      let iid := db.invoices.length + 1
      match generate_gl_entries db.gl
          [⟨arAccountId, totalAmount, 0, "Invoice " ++ number⟩,
           ⟨revenueAccountId, 0, totalAmount,
            "Invoice " ++ number ++ " - " ++ itemDescription⟩]
          createdBy "SalesInvoice" ("InvoiceID:" ++ toString iid) today with
      | .error e => .error e
      | .ok gl2 =>
        .ok { db with
          invoices := db.invoices
            ++ [⟨iid, number, customerId, invoiceDate, dueDate, totalAmount,
                 0, totalAmount, "Issued"⟩]
          invoiceItems := db.invoiceItems
            ++ [⟨iid, itemDescription, quantity, unitPrice, taxRate,
                 taxAmount, lineTotal, revenueAccountId⟩]
          gl := gl2 }

/-- `list_open_customer_invoices`: note the filter is
`Status IN ('Issued', 'Overdue') AND Balance > 0.00`, ordered by due
date ascending. -/
def list_open_customer_invoices (db : DB) (customerId : Nat) :
    List Invoice :=
  (db.invoices.filter (fun i =>
      i.customerId == customerId
        && (i.status == "Issued" || i.status == "Overdue")
        && decide ((0 : ℚ) < i.balance))).mergeSort
    (fun a b => decide (a.dueDate ≤ b.dueDate))

/-- `list_open_vendor_bills`: filter is
`Status NOT IN ('Paid', 'Cancelled', 'Draft') AND Balance > 0.00` on the
generated balance, ordered by due date ascending. -/
def list_open_vendor_bills (db : DB) (vendorId : Nat) : List Bill :=
  (db.bills.filter (fun b =>
      b.vendorId == vendorId
        && !(b.status == "Paid" || b.status == "Cancelled"
              || b.status == "Draft")
        && decide ((0 : ℚ) < b.balance))).mergeSort
    (fun a b => decide (a.dueDate ≤ b.dueDate))

/-- The row update of `apply_full_payment_to_invoice`:
`PaidAmount = TotalAmount, Balance = 0.00, Status = 'Paid'`. -/
def payOffInvoice (iid : Nat) (i : Invoice) : Invoice :=
  if i.invoiceId == iid then
    { i with paidAmount := i.totalAmount, balance := 0, status := "Paid" }
  else i

/-- `apply_full_payment_to_invoice`: full-settlement-only allocation;
no ledger lines, no bank update, no payment mutation. -/
def apply_full_payment_to_invoice (db : DB) (paymentId invoiceId : Nat) :
    Except OpError DB :=
  match findCustPayment db paymentId with
  | none => .error .notFound
  | some p =>
    match findInvoice db invoiceId with
    | none => .error .notFound
    | some inv =>
      if inv.status = "Paid" ∨ inv.balance ≤ 0 then .error .alreadySettled
      else if p.amount < inv.balance then .error .insufficientPayment
      else .ok { db with invoices := db.invoices.map (payOffInvoice invoiceId) }

/-- The row update of `apply_full_payment_to_bill`:
`PaidAmount = TotalAmount, Status = 'Paid'` (balance is generated). -/
def payOffBill (bid : Nat) (b : Bill) : Bill :=
  if b.billId == bid then
    { b with paidAmount := b.totalAmount, status := "Paid" }
  else b

/-- `apply_full_payment_to_bill`. -/
def apply_full_payment_to_bill (db : DB) (paymentId billId : Nat) :
    Except OpError DB :=
  match findVendPayment db paymentId with
  | none => .error .notFound
  | some p =>
    match findBill db billId with
    | none => .error .notFound
    | some b =>
      if b.status = "Paid" ∨ b.balance ≤ 0 then .error .alreadySettled
      else if p.amount < b.balance then .error .insufficientPayment
      else .ok { db with bills := db.bills.map (payOffBill billId) }

/-- The row update of `void_invoice`:
`Status = 'Cancelled', Balance = 0.00` (paid amount untouched). -/
def cancelInvoice (iid : Nat) (i : Invoice) : Invoice :=
  if i.invoiceId == iid then { i with status := "Cancelled", balance := 0 }
  else i

/-- `void_invoice`: reject when paid or settled, set Cancelled with zero
balance, and post the reversing Cr AR / Dr Revenue batch when the total
is positive. -/
def void_invoice (db : DB) (invoiceId arAccountId revenueAccountId
    voidBy today : Nat) : Except OpError DB :=
  match findInvoice db invoiceId with
  | none => .error .notFound
  | some inv =>
    if 0 < inv.paidAmount then .error .cannotVoidSettled
    else if inv.status = "Paid" ∨ inv.status = "Cancelled" then
      .error .cannotVoidSettled
    else
      let invoices2 := db.invoices.map (cancelInvoice invoiceId)
      if 0 < inv.totalAmount then
        match generate_gl_entries db.gl
            [⟨arAccountId, 0, inv.totalAmount,
              "Void InvoiceID " ++ toString invoiceId⟩,
             ⟨revenueAccountId, inv.totalAmount, 0,
              "Void InvoiceID " ++ toString invoiceId⟩]
            voidBy "InvoiceVoid" ("VoidInvoiceID:" ++ toString invoiceId)
            today with
        | .error e => .error e
        | .ok gl2 => .ok { db with invoices := invoices2, gl := gl2 }
      else .ok { db with invoices := invoices2 }

/-- The row update of `void_bill`: `Status = 'Cancelled'` only — the
paid amount stays 0 and the generated balance is untouched. -/
def cancelBill (bid : Nat) (b : Bill) : Bill :=
  if b.billId == bid then { b with status := "Cancelled" } else b

/-- `void_bill`: reject when paid or settled, set Cancelled, and post
the reversing Dr AP / Cr Expense batch when the total is positive. -/
def void_bill (db : DB) (billId apAccountId expenseAccountId
    voidBy today : Nat) : Except OpError DB :=
  match findBill db billId with
  | none => .error .notFound
  | some b =>
    if 0 < b.paidAmount then .error .cannotVoidSettled
    else if b.status = "Paid" ∨ b.status = "Cancelled" then
      .error .cannotVoidSettled
    else
      let bills2 := db.bills.map (cancelBill billId)
      if 0 < b.totalAmount then
        match generate_gl_entries db.gl
            [⟨apAccountId, b.totalAmount, 0,
              "Void BillID " ++ toString billId⟩,
             ⟨expenseAccountId, 0, b.totalAmount,
              "Void BillID " ++ toString billId⟩]
            voidBy "BillVoid" ("VoidBillID:" ++ toString billId) today with
        | .error e => .error e
        | .ok gl2 => .ok { db with bills := bills2, gl := gl2 }
      else .ok { db with bills := bills2 }

/-! ### Concrete states used to instantiate and to refute claims -/

/-- A chart whose first account is inactive. -/
def chartC1 : List Account :=
  [⟨1, "1500", "Equipment", "Debit", false⟩,
   ⟨2, "4000", "Sales Revenue", "Credit", true⟩]

/-- A balanced two-line batch touching accounts 1 and 2. -/
def batchC1 : List EntrySpec :=
  [⟨1, 10, 0, "adjust"⟩, ⟨2, 0, 10, "adjust"⟩]

/-- The ledger after posting `batchC1` once. -/
def glC1 : List GLLine := mkLines batchC1 "ManualJournal" "MJ-1" 0 9

/-- The all-active variant of the same chart. -/
def chartW1 : List Account :=
  [⟨1, "1500", "Equipment", "Debit", true⟩,
   ⟨2, "4000", "Sales Revenue", "Credit", true⟩]

/-- A one-line batch whose debit total 5 differs from its credit total 0. -/
def esC2 : List EntrySpec := [⟨1, 5, 0, "oops"⟩]

/-- A bill as the spec's void example: total 78.90, nothing paid. -/
def dbC3 : DB :=
  { emptyDB with
    bills := [⟨1, "B-42", 5, 0, 30, 789/10, 0, "Received"⟩]
    gl := mkLines
      [⟨53, 789/10, 0, "Vendor Bill B-42"⟩, ⟨23, 0, 789/10, "Vendor Bill B-42"⟩]
      "VendorBill" "BillID:1" 0 9 }

/-- One fully paid invoice and one fully paid bill. -/
def dbC4 : DB :=
  { emptyDB with
    invoices := [⟨1, "INV-0001", 1, 0, 30, 100, 100, 0, "Paid"⟩]
    bills := [⟨1, "B-1", 1, 0, 30, 50, 50, "Paid"⟩] }

/-- Open documents with balance 40 and payments of only 30. -/
def dbC5 : DB :=
  { emptyDB with
    custPayments := [⟨1, 1, 0, 30, "EFT", "r1", 1⟩]
    vendPayments := [⟨1, 1, 0, 30, "EFT", "r2", 1⟩]
    invoices := [⟨1, "INV-0001", 1, 0, 30, 40, 0, 40, "Issued"⟩]
    bills := [⟨1, "B-1", 1, 0, 30, 40, 0, "Received"⟩] }

/-- Open documents with balance 40 and payments of exactly 40. -/
def dbC6 : DB :=
  { emptyDB with
    custPayments := [⟨1, 1, 0, 40, "EFT", "r1", 1⟩]
    vendPayments := [⟨1, 1, 0, 40, "EFT", "r2", 1⟩]
    invoices := [⟨1, "INV-0001", 1, 0, 30, 40, 0, 40, "Issued"⟩]
    bills := [⟨1, "B-1", 1, 0, 30, 40, 0, "Received"⟩] }

/-- An open invoice whose status string is outside the set the invoice
list query selects, though not in Paid/Cancelled/Draft either. -/
def dbC8 : DB :=
  { emptyDB with
    invoices := [⟨1, "INV-0001", 1, 0, 30, 10, 0, 10, "Received"⟩] }

/-- A bank whose linked cash account carries Credit polarity. -/
def dbC9 : DB :=
  { emptyDB with
    accounts := [⟨7, "1000", "Cash in Bank", "Credit", true⟩]
    banks := [⟨1, 0⟩] }

/-- A bank whose linked cash account carries Debit polarity. -/
def dbW9 : DB :=
  { emptyDB with
    accounts := [⟨7, "1000", "Cash in Bank", "Debit", true⟩]
    banks := [⟨1, 0⟩] }

/-- One payment of 100 on each side and two open documents each. -/
def dbW10 : DB :=
  { emptyDB with
    custPayments := [⟨1, 1, 0, 100, "EFT", "rc", 1⟩]
    vendPayments := [⟨1, 1, 0, 100, "EFT", "rv", 1⟩]
    invoices := [⟨1, "INV-0001", 1, 0, 10, 40, 0, 40, "Issued"⟩,
                 ⟨2, "INV-0002", 1, 0, 20, 30, 0, 30, "Issued"⟩]
    bills := [⟨1, "B-1", 1, 0, 10, 40, 0, "Received"⟩,
              ⟨2, "B-2", 1, 0, 20, 30, 0, "Received"⟩] }

end FinAgent

namespace FinAgent

/-! ### Arithmetic helper lemmas -/

theorem sum_map_sub {α : Type} (f g : α → ℚ) (l : List α) :
    (l.map f).sum - (l.map g).sum = (l.map (fun x => f x - g x)).sum := by
  induction l with
  | nil => simp
  | cons x xs ih =>
    simp only [List.map_cons, List.sum_cons, ← ih]
    ring

theorem sum_map_add {α : Type} (f g : α → ℚ) (l : List α) :
    (l.map (fun x => f x + g x)).sum = (l.map f).sum + (l.map g).sum := by
  induction l with
  | nil => simp
  | cons x xs ih =>
    simp only [List.map_cons, List.sum_cons, ih]
    ring

theorem sum_ite_not_mem (ids : List Nat) (k : Nat) (v : ℚ) (hk : k ∉ ids) :
    (ids.map (fun aid => if k = aid then v else 0)).sum = 0 := by
  induction ids with
  | nil => simp
  | cons a rest ih =>
    have hka : k ≠ a := fun h => hk (h ▸ List.mem_cons_self a rest)
    have hkr : k ∉ rest := fun h => hk (List.mem_cons_of_mem a h)
    simp [hka, ih hkr]

theorem sum_ite_mem (ids : List Nat) (k : Nat) (v : ℚ) (hnd : ids.Nodup)
    (hk : k ∈ ids) :
    (ids.map (fun aid => if k = aid then v else 0)).sum = v := by
  induction ids with
  | nil => simp at hk
  | cons a rest ih =>
    rcases List.mem_cons.mp hk with h | h
    · subst h
      have hkr : k ∉ rest := (List.nodup_cons.mp hnd).1
      simp [sum_ite_not_mem rest k v hkr]
    · have hka : k ≠ a := by
        intro he
        exact (List.nodup_cons.mp hnd).1 (he ▸ h)
      simp [hka, ih (List.nodup_cons.mp hnd).2 h]

/-! ### Trial-balance lemmas -/

theorem netSum_cons (x : GLLine) (xs : List GLLine) (aid : Nat) :
    netSum (x :: xs) aid
      = (if x.accountId = aid then lineNet x else 0) + netSum xs aid := by
  by_cases h : x.accountId = aid
  · simp [netSum, List.filter_cons, h]
  · simp [netSum, List.filter_cons, h]

theorem netSum_over_ids (ids : List Nat) (hnd : ids.Nodup) (ls : List GLLine)
    (hmem : ∀ l ∈ ls, l.accountId ∈ ids) :
    (ids.map (fun aid => netSum ls aid)).sum = (ls.map lineNet).sum := by
  induction ls with
  | nil => simp [netSum]
  | cons x xs ih =>
    have hx : x.accountId ∈ ids := hmem x (List.mem_cons_self x xs)
    have hxs : ∀ l ∈ xs, l.accountId ∈ ids := fun l hl =>
      hmem l (List.mem_cons_of_mem x hl)
    calc (ids.map (fun aid => netSum (x :: xs) aid)).sum
        = (ids.map (fun aid =>
            (if x.accountId = aid then lineNet x else 0) + netSum xs aid)).sum := by
          simp only [netSum_cons]
      _ = (ids.map (fun aid => if x.accountId = aid then lineNet x else 0)).sum
            + (ids.map (fun aid => netSum xs aid)).sum :=
          sum_map_add _ _ ids
      _ = lineNet x + (xs.map lineNet).sum := by
          rw [sum_ite_mem ids x.accountId (lineNet x) hnd hx, ih hxs]
      _ = ((x :: xs).map lineNet).sum := by simp

theorem tbCols_sub (gl : List GLLine) (asOf : Option Nat) (a : Account)
    (hbt : a.balanceType = "Debit" ∨ a.balanceType = "Credit") :
    (tbCols gl asOf a).1 - (tbCols gl asOf a).2
      = debitSum gl a.accountId asOf - creditSum gl a.accountId asOf := by
  rcases hbt with h | h
  · simp only [tbCols, h]
    split_ifs with h1 h2 <;> simp <;> linarith
  · have h' : a.balanceType ≠ "Debit" := by simp [h]
    simp only [tbCols, h, h']
    split_ifs with h1 h2 <;> simp <;> linarith

theorem debitSum_sub_creditSum (gl : List GLLine) (aid : Nat)
    (asOf : Option Nat) :
    debitSum gl aid asOf - creditSum gl aid asOf
      = netSum (glAsOf gl asOf) aid := by
  simp only [debitSum, creditSum, netSum, linesFor, lineNet]
  exact sum_map_sub _ _ _

theorem trial_balance_totals_sub (accounts : List Account) (gl : List GLLine)
    (asOf : Option Nat)
    (hbt : ∀ a ∈ accounts, a.balanceType = "Debit" ∨ a.balanceType = "Credit") :
    (generate_trial_balance accounts gl asOf).totalDebit
      - (generate_trial_balance accounts gl asOf).totalCredit
      = (((accounts.filter (·.isActive)).map (·.accountId)).map
          (fun aid => netSum (glAsOf gl asOf) aid)).sum := by
  have hact : ∀ a ∈ accounts.filter (·.isActive),
      a.balanceType = "Debit" ∨ a.balanceType = "Credit" :=
    fun a ha => hbt a (List.mem_of_mem_filter ha)
  simp only [generate_trial_balance]
  rw [sum_map_sub, List.map_map]
  apply congrArg List.sum
  apply List.map_congr_left
  intro a ha
  rw [tbCols_sub gl asOf a (hact a ha), debitSum_sub_creditSum]
  rfl

theorem glAsOf_append (gl ls : List GLLine) (asOf : Option Nat) :
    glAsOf (gl ++ ls) asOf = glAsOf gl asOf ++ glAsOf ls asOf :=
  List.filter_append _ _

theorem glAsOf_mkLines (es : List EntrySpec) (et ref : String)
    (today createdBy : Nat) (asOf : Option Nat) :
    glAsOf (mkLines es et ref today createdBy) asOf
      = if dateOk asOf today then mkLines es et ref today createdBy else [] := by
  by_cases h : dateOk asOf today
  · rw [if_pos h]
    apply List.filter_eq_self.mpr
    intro l hl
    simp only [mkLines, List.mem_map] at hl
    obtain ⟨e, _, rfl⟩ := hl
    exact h
  · rw [if_neg h]
    apply List.filter_eq_nil_iff.mpr
    intro l hl
    simp only [mkLines, List.mem_map] at hl
    obtain ⟨e, _, rfl⟩ := hl
    simpa using h

theorem lineNet_sum_mkLines (es : List EntrySpec) (et ref : String)
    (today createdBy : Nat) :
    ((mkLines es et ref today createdBy).map lineNet).sum
      = entriesDebit es - entriesCredit es := by
  simp only [mkLines, List.map_map, entriesDebit, entriesCredit, sum_map_sub]
  rfl

/-- Along any sequence of successful postings, the signed net of the
date-filtered ledger stays zero: each committed batch balances and all
its rows share one entry date, so the cutoff keeps or drops it whole. -/
theorem reachable_net_zero (gl : List GLLine) (hreach : ReachableGL gl)
    (asOf : Option Nat) :
    ((glAsOf gl asOf).map lineNet).sum = 0 := by
  induction hreach with
  | nil => simp [glAsOf]
  | post gl es et ref today createdBy h hbal ih =>
    rw [glAsOf_append, List.map_append, List.sum_append, ih,
      glAsOf_mkLines]
    by_cases hd : dateOk asOf today
    · rw [if_pos hd, lineNet_sum_mkLines, hbal]
      ring
    · rw [if_neg hd]
      simp

end FinAgent

namespace FinAgent

/-! ### Claim C1 -/

/-- Claim C1, amended: for every ledger state reachable by successful
postings from an empty GeneralLedger, the trial balance as of any cutoff
date has equal debit and credit totals, provided every posted line's
account exists in the chart, is active, and carries a valid polarity
(`'Debit'` or `'Credit'`, as `add_new_gl_account` enforces). -/
theorem C1_trial_balance_balances (accounts : List Account)
    (gl : List GLLine) (asOf : Option Nat) (hreach : ReachableGL gl)
    (hnd : (((accounts.filter (·.isActive)).map (·.accountId))).Nodup)
    (hbt : ∀ a ∈ accounts, a.balanceType = "Debit" ∨ a.balanceType = "Credit")
    (hact : ∀ l ∈ gl,
      l.accountId ∈ (accounts.filter (·.isActive)).map (·.accountId)) :
    (generate_trial_balance accounts gl asOf).totalDebit
      = (generate_trial_balance accounts gl asOf).totalCredit := by
  have key := trial_balance_totals_sub accounts gl asOf hbt
  have hmem : ∀ l ∈ glAsOf gl asOf,
      l.accountId ∈ (accounts.filter (·.isActive)).map (·.accountId) :=
    fun l hl => hact l (List.mem_of_mem_filter hl)
  rw [netSum_over_ids _ hnd _ hmem, reachable_net_zero gl hreach asOf] at key
  linarith

/-- Witness: one balanced batch against two active accounts of opposite
polarity gives equal totals. -/
theorem C1_trial_balance_balances_witness :
    (generate_trial_balance chartW1 glC1 (some 5)).totalDebit
      = (generate_trial_balance chartW1 glC1 (some 5)).totalCredit := by
  apply C1_trial_balance_balances
  · have h := ReachableGL.post [] batchC1 "ManualJournal" "MJ-1" 0 9
      ReachableGL.nil
      (by simp [entriesDebit, entriesCredit, batchC1])
    simpa [glC1] using h
  · simp [chartW1]
  · simp [chartW1]
  · intro l hl
    simp only [glC1, batchC1, mkLines, List.map_cons, List.map_nil,
      List.mem_cons, List.not_mem_nil, or_false] at hl
    rcases hl with rfl | rfl <;> simp [chartW1]

/-- Claim C1 as stated is refutable: a successful posting may hit an
inactive chart account, which the report then skips, so its totals need
not match. -/
theorem C1_counterexample :
    ReachableGL glC1 ∧
    (generate_trial_balance chartC1 glC1 none).totalDebit
      ≠ (generate_trial_balance chartC1 glC1 none).totalCredit := by
  constructor
  · have h := ReachableGL.post [] batchC1 "ManualJournal" "MJ-1" 0 9
      ReachableGL.nil
      (by simp [entriesDebit, entriesCredit, batchC1])
    simpa [glC1] using h
  · have hne : (("Credit" : String) = "Debit") ↔ False :=
      iff_false_intro (by decide)
    norm_num [generate_trial_balance, chartC1, glC1, batchC1, tbCols,
      debitSum, creditSum, linesFor, glAsOf, dateOk, mkLines, lineNet,
      List.filter_cons, List.filter_nil, hne]


/-! ### Lookup-after-update helper lemmas -/

theorem find?_map_key {α : Type} (key : α → Nat) (k : Nat) (g : α → α)
    (hg : ∀ x, key (g x) = key x) (l : List α) :
    (l.map g).find? (fun x => key x == k) = (l.find? (fun x => key x == k)).map g := by
  rw [List.find?_map]
  have hc : ((fun x => key x == k) ∘ g) = (fun x => key x == k) :=
    funext fun x => by simp [Function.comp, hg]
  rw [hc]

theorem payOffInvoice_id (iid : Nat) (i : Invoice) :
    (payOffInvoice iid i).invoiceId = i.invoiceId := by
  by_cases h : i.invoiceId == iid <;> simp [payOffInvoice, h]

theorem payOffBill_id (bid : Nat) (b : Bill) :
    (payOffBill bid b).billId = b.billId := by
  by_cases h : b.billId == bid <;> simp [payOffBill, h]

theorem cancelInvoice_id (iid : Nat) (i : Invoice) :
    (cancelInvoice iid i).invoiceId = i.invoiceId := by
  by_cases h : i.invoiceId == iid <;> simp [cancelInvoice, h]

theorem cancelBill_id (bid : Nat) (b : Bill) :
    (cancelBill bid b).billId = b.billId := by
  by_cases h : b.billId == bid <;> simp [cancelBill, h]

theorem findInvoice_map (db : DB) (g : Invoice → Invoice)
    (hg : ∀ i, (g i).invoiceId = i.invoiceId) (k : Nat) :
    findInvoice { db with invoices := db.invoices.map g } k
      = (findInvoice db k).map g := by
  simp only [findInvoice]
  exact find?_map_key (·.invoiceId) k g hg db.invoices

theorem findBill_map (db : DB) (g : Bill → Bill)
    (hg : ∀ b, (g b).billId = b.billId) (k : Nat) :
    findBill { db with bills := db.bills.map g } k
      = (findBill db k).map g := by
  simp only [findBill]
  exact find?_map_key (·.billId) k g hg db.bills

theorem findInvoice_id (db : DB) (iid : Nat) (inv : Invoice)
    (h : findInvoice db iid = some inv) : inv.invoiceId = iid := by
  have := List.find?_some h
  simpa using this

theorem findBill_id (db : DB) (bid : Nat) (b : Bill)
    (h : findBill db bid = some b) : b.billId = bid := by
  have := List.find?_some h
  simpa using this

/-- Success case of `apply_full_payment_to_invoice`, stated once so that
several claims can instantiate it. -/
theorem apply_invoice_ok (db : DB) (pid iid : Nat) (p : Payment)
    (inv : Invoice) (hp : findCustPayment db pid = some p)
    (hi : findInvoice db iid = some inv) (hst : inv.status ≠ "Paid")
    (hbal : 0 < inv.balance) (hle : inv.balance ≤ p.amount) :
    apply_full_payment_to_invoice db pid iid
      = .ok { db with invoices := db.invoices.map (payOffInvoice iid) } := by
  simp only [apply_full_payment_to_invoice, hp, hi]
  have hset : ¬(inv.status = "Paid" ∨ inv.balance ≤ 0) := by
    rintro (h | h)
    · exact hst h
    · linarith
  rw [if_neg hset, if_neg (by linarith)]

/-- Success case of `apply_full_payment_to_bill`. -/
theorem apply_bill_ok (db : DB) (pid bid : Nat) (p : Payment) (b : Bill)
    (hp : findVendPayment db pid = some p) (hb : findBill db bid = some b)
    (hst : b.status ≠ "Paid") (hbal : 0 < b.balance)
    (hle : b.balance ≤ p.amount) :
    apply_full_payment_to_bill db pid bid
      = .ok { db with bills := db.bills.map (payOffBill bid) } := by
  simp only [apply_full_payment_to_bill, hp, hb]
  have hset : ¬(b.status = "Paid" ∨ b.balance ≤ 0) := by
    rintro (h | h)
    · exact hst h
    · linarith
  rw [if_neg hset, if_neg (by linarith)]

/-! ### Claim C2 -/

/-- Claim C2: a batch whose exact debit total differs from its credit
total is rejected by the posting engine with the unbalanced-batch error,
and the committed GeneralLedger is exactly the old one — no line of the
batch survives the rollback. -/
theorem C2_unbalanced_batch_rejected (gl : List GLLine)
    (es : List EntrySpec) (createdBy today : Nat) (et ref : String)
    (h : entriesDebit es ≠ entriesCredit es) :
    generate_gl_entries gl es createdBy et ref today = .error .unbalanced ∧
    committedGL gl (generate_gl_entries gl es createdBy et ref today) = gl := by
  have h1 : generate_gl_entries gl es createdBy et ref today
      = .error .unbalanced := by
    simp [generate_gl_entries, h]
  exact ⟨h1, by rw [h1]; rfl⟩

/-- Witness: a lone debit line of 5 is rejected and persists nothing. -/
theorem C2_unbalanced_batch_rejected_witness :
    generate_gl_entries [] esC2 9 "ManualJournal" "MJ-2" 0
      = .error .unbalanced ∧
    committedGL [] (generate_gl_entries [] esC2 9 "ManualJournal" "MJ-2" 0)
      = [] :=
  C2_unbalanced_batch_rejected [] esC2 9 0 "ManualJournal" "MJ-2"
    (by norm_num [entriesDebit, entriesCredit, esC2])

/-! ### Claim C3 -/

/-- Claim C3's failing input, evaluated: voiding the unpaid bill of
total 78.90 succeeds and sets status Cancelled with paid still 0, but
the generated balance (Total − Paid) is then 78.90, not the 0 the claim
requires. -/
theorem C3_void_bill_balance_not_zero :
    ∃ db2, void_bill dbC3 1 23 53 9 0 = .ok db2 ∧
      ∃ b2, findBill db2 1 = some b2 ∧ b2.status = "Cancelled" ∧
        b2.paidAmount = 0 ∧ b2.balance = 789/10 ∧ b2.balance ≠ 0 := by
  have hS1 : (("Received" : String) = "Paid") ↔ False :=
    iff_false_intro (by decide)
  have hS2 : (("Received" : String) = "Cancelled") ↔ False :=
    iff_false_intro (by decide)
  have hrun : void_bill dbC3 1 23 53 9 0 = .ok
      { dbC3 with
        bills := [⟨1, "B-42", 5, 0, 30, 789/10, 0, "Cancelled"⟩]
        gl := dbC3.gl ++ mkLines
          [⟨23, 789/10, 0, "Void BillID " ++ toString 1⟩,
           ⟨53, 0, 789/10, "Void BillID " ++ toString 1⟩]
          "BillVoid" ("VoidBillID:" ++ toString 1) 0 9 } := by
    norm_num [void_bill, dbC3, findBill, cancelBill, generate_gl_entries,
      entriesDebit, entriesCredit, hS1, hS2]
  refine ⟨_, hrun, ⟨1, "B-42", 5, 0, 30, 789/10, 0, "Cancelled"⟩, rfl, rfl,
    rfl, ?_, ?_⟩
  · norm_num [Bill.balance]
  · norm_num [Bill.balance]

/-! ### Claim C4 -/

/-- Claim C4: voiding a document that has payments recorded or is in a
terminal status fails with the cannot-void error and changes nothing. -/
theorem C4_void_settled_rejected :
    (∀ (db : DB) (iid ar rev emp today : Nat) (inv : Invoice),
       findInvoice db iid = some inv →
       (0 < inv.paidAmount ∨ inv.status = "Paid" ∨ inv.status = "Cancelled") →
       void_invoice db iid ar rev emp today = .error .cannotVoidSettled ∧
       resultState db (void_invoice db iid ar rev emp today) = db)
    ∧ (∀ (db : DB) (bid ap expAcct emp today : Nat) (b : Bill),
       findBill db bid = some b →
       (0 < b.paidAmount ∨ b.status = "Paid" ∨ b.status = "Cancelled") →
       void_bill db bid ap expAcct emp today = .error .cannotVoidSettled ∧
       resultState db (void_bill db bid ap expAcct emp today) = db) := by
  constructor
  · intro db iid ar rev emp today inv hfind hcond
    have herr : void_invoice db iid ar rev emp today
        = .error .cannotVoidSettled := by
      simp only [void_invoice, hfind]
      by_cases hp : 0 < inv.paidAmount
      · rw [if_pos hp]
      · rw [if_neg hp, if_pos (by tauto)]
    exact ⟨herr, by rw [herr]; rfl⟩
  · intro db bid ap expAcct emp today b hfind hcond
    have herr : void_bill db bid ap expAcct emp today
        = .error .cannotVoidSettled := by
      simp only [void_bill, hfind]
      by_cases hp : 0 < b.paidAmount
      · rw [if_pos hp]
      · rw [if_neg hp, if_pos (by tauto)]
    exact ⟨herr, by rw [herr]; rfl⟩

/-- Witness: a fully paid invoice and a fully paid bill are both
rejected and the database is untouched. -/
theorem C4_void_settled_rejected_witness :
    (void_invoice dbC4 1 3 40 9 0 = .error .cannotVoidSettled ∧
     resultState dbC4 (void_invoice dbC4 1 3 40 9 0) = dbC4) ∧
    (void_bill dbC4 1 23 53 9 0 = .error .cannotVoidSettled ∧
     resultState dbC4 (void_bill dbC4 1 23 53 9 0) = dbC4) :=
  ⟨C4_void_settled_rejected.1 dbC4 1 3 40 9 0
      ⟨1, "INV-0001", 1, 0, 30, 100, 100, 0, "Paid"⟩ rfl
      (Or.inl (by norm_num)),
   C4_void_settled_rejected.2 dbC4 1 23 53 9 0
      ⟨1, "B-1", 1, 0, 30, 50, 50, "Paid"⟩ rfl
      (Or.inl (by norm_num))⟩

/-! ### Claim C5 -/

/-- Claim C5: a payment smaller than the open document's balance is
rejected as insufficient and the database is untouched. -/
theorem C5_insufficient_payment_rejected :
    (∀ (db : DB) (pid iid : Nat) (p : Payment) (inv : Invoice),
       findCustPayment db pid = some p → findInvoice db iid = some inv →
       inv.status ≠ "Paid" → 0 < inv.balance → p.amount < inv.balance →
       apply_full_payment_to_invoice db pid iid
         = .error .insufficientPayment ∧
       resultState db (apply_full_payment_to_invoice db pid iid) = db)
    ∧ (∀ (db : DB) (pid bid : Nat) (p : Payment) (b : Bill),
       findVendPayment db pid = some p → findBill db bid = some b →
       b.status ≠ "Paid" → 0 < b.balance → p.amount < b.balance →
       apply_full_payment_to_bill db pid bid
         = .error .insufficientPayment ∧
       resultState db (apply_full_payment_to_bill db pid bid) = db) := by
  constructor
  · intro db pid iid p inv hp hi hst hbal hlt
    have herr : apply_full_payment_to_invoice db pid iid
        = .error .insufficientPayment := by
      simp only [apply_full_payment_to_invoice, hp, hi]
      have hset : ¬(inv.status = "Paid" ∨ inv.balance ≤ 0) := by
        rintro (h | h)
        · exact hst h
        · linarith
      rw [if_neg hset, if_pos hlt]
    exact ⟨herr, by rw [herr]; rfl⟩
  · intro db pid bid p b hp hb hst hbal hlt
    have herr : apply_full_payment_to_bill db pid bid
        = .error .insufficientPayment := by
      simp only [apply_full_payment_to_bill, hp, hb]
      have hset : ¬(b.status = "Paid" ∨ b.balance ≤ 0) := by
        rintro (h | h)
        · exact hst h
        · linarith
      rw [if_neg hset, if_pos hlt]
    exact ⟨herr, by rw [herr]; rfl⟩

/-- Witness: payments of 30 against balances of 40 on both sides. -/
theorem C5_insufficient_payment_rejected_witness :
    (apply_full_payment_to_invoice dbC5 1 1 = .error .insufficientPayment ∧
     resultState dbC5 (apply_full_payment_to_invoice dbC5 1 1) = dbC5) ∧
    (apply_full_payment_to_bill dbC5 1 1 = .error .insufficientPayment ∧
     resultState dbC5 (apply_full_payment_to_bill dbC5 1 1) = dbC5) :=
  ⟨C5_insufficient_payment_rejected.1 dbC5 1 1
      ⟨1, 1, 0, 30, "EFT", "r1", 1⟩
      ⟨1, "INV-0001", 1, 0, 30, 40, 0, 40, "Issued"⟩
      rfl rfl (by decide) (by norm_num) (by norm_num),
   C5_insufficient_payment_rejected.2 dbC5 1 1
      ⟨1, 1, 0, 30, "EFT", "r2", 1⟩
      ⟨1, "B-1", 1, 0, 30, 40, 0, "Received"⟩
      rfl rfl (by decide) (by norm_num [Bill.balance])
      (by norm_num [Bill.balance])⟩

/-! ### Claim C6 -/

/-- Claim C6: a payment at least covering an open document's balance
marks it fully paid — paid = total, balance = 0, status Paid — while the
GeneralLedger, the bank balances and both payment tables are untouched:
applying is purely a subledger-status update. -/
theorem C6_full_payment_applies :
    (∀ (db : DB) (pid iid : Nat) (p : Payment) (inv : Invoice),
       findCustPayment db pid = some p → findInvoice db iid = some inv →
       inv.status ≠ "Paid" → 0 < inv.balance → inv.balance ≤ p.amount →
       ∃ db2, apply_full_payment_to_invoice db pid iid = .ok db2 ∧
         findInvoice db2 iid = some
           { inv with
             paidAmount := inv.totalAmount
             balance := 0
             status := "Paid" } ∧
         db2.gl = db.gl ∧ db2.banks = db.banks ∧
         db2.custPayments = db.custPayments ∧
         db2.vendPayments = db.vendPayments)
    ∧ (∀ (db : DB) (pid bid : Nat) (p : Payment) (b : Bill),
       findVendPayment db pid = some p → findBill db bid = some b →
       b.status ≠ "Paid" → 0 < b.balance → b.balance ≤ p.amount →
       ∃ db2, apply_full_payment_to_bill db pid bid = .ok db2 ∧
         findBill db2 bid = some
           { b with paidAmount := b.totalAmount, status := "Paid" } ∧
         Bill.balance { b with paidAmount := b.totalAmount, status := "Paid" }
           = 0 ∧
         db2.gl = db.gl ∧ db2.banks = db.banks ∧
         db2.custPayments = db.custPayments ∧
         db2.vendPayments = db.vendPayments) := by
  constructor
  · intro db pid iid p inv hp hi hst hbal hle
    refine ⟨_, apply_invoice_ok db pid iid p inv hp hi hst hbal hle,
      ?_, rfl, rfl, rfl, rfl⟩
    rw [findInvoice_map db (payOffInvoice iid) (payOffInvoice_id iid) iid, hi]
    have hid : inv.invoiceId = iid := findInvoice_id db iid inv hi
    simp [payOffInvoice, hid]
  · intro db pid bid p b hp hb hst hbal hle
    refine ⟨_, apply_bill_ok db pid bid p b hp hb hst hbal hle,
      ?_, by simp [Bill.balance], rfl, rfl, rfl, rfl⟩
    rw [findBill_map db (payOffBill bid) (payOffBill_id bid) bid, hb]
    have hid : b.billId = bid := findBill_id db bid b hb
    simp [payOffBill, hid]

/-- Witness: payments of exactly 40 settle the documents of balance 40
on both sides. -/
theorem C6_full_payment_applies_witness :
    (∃ db2, apply_full_payment_to_invoice dbC6 1 1 = .ok db2 ∧
       findInvoice db2 1 = some ⟨1, "INV-0001", 1, 0, 30, 40, 40, 0, "Paid"⟩ ∧
       db2.gl = dbC6.gl ∧ db2.banks = dbC6.banks ∧
       db2.custPayments = dbC6.custPayments ∧
       db2.vendPayments = dbC6.vendPayments) ∧
    (∃ db2, apply_full_payment_to_bill dbC6 1 1 = .ok db2 ∧
       findBill db2 1 = some ⟨1, "B-1", 1, 0, 30, 40, 40, "Paid"⟩ ∧
       db2.gl = dbC6.gl ∧ db2.banks = dbC6.banks ∧
       db2.custPayments = dbC6.custPayments ∧
       db2.vendPayments = dbC6.vendPayments) := by
  constructor
  · obtain ⟨db2, h1, h2, h3, h4, h5, h6⟩ := C6_full_payment_applies.1 dbC6 1 1
      ⟨1, 1, 0, 40, "EFT", "r1", 1⟩
      ⟨1, "INV-0001", 1, 0, 30, 40, 0, 40, "Issued"⟩
      rfl rfl (by decide) (by norm_num) (by norm_num)
    exact ⟨db2, h1, h2, h3, h4, h5, h6⟩
  · obtain ⟨db2, h1, h2, _, h3, h4, h5, h6⟩ := C6_full_payment_applies.2 dbC6 1 1
      ⟨1, 1, 0, 40, "EFT", "r2", 1⟩
      ⟨1, "B-1", 1, 0, 30, 40, 0, "Received"⟩
      rfl rfl (by decide) (by norm_num [Bill.balance])
      (by norm_num [Bill.balance])
    exact ⟨db2, h1, h2, h3, h4, h5, h6⟩

/-! ### Claim C7 -/

/-- Claim C7: with quantity > 0, unit price ≥ 0 and tax rate ≥ 0 (and a
fresh invoice number), creation succeeds and inserts the header with
total = quantity·price + quantity·price·(rate/100), paid = 0,
balance = total and status Issued. -/
theorem C7_create_invoice_fields (db : DB)
    (customerId invoiceDate dueDate : Nat) (desc : String)
    (qty price : ℚ) (rev ar emp : Nat) (number : String) (taxRate : ℚ)
    (today : Nat) (hq : 0 < qty) (hpr : 0 ≤ price) (ht : 0 ≤ taxRate)
    (hfresh : ∀ i ∈ db.invoices, i.invoiceNumber ≠ number) :
    ∃ db2, create_simple_sales_invoice db customerId invoiceDate dueDate
        desc qty price rev ar emp (some number) taxRate today = .ok db2 ∧
      db2.invoices = db.invoices ++
        [⟨db.invoices.length + 1, number, customerId, invoiceDate, dueDate,
          qty * price + qty * price * (taxRate / 100), 0,
          qty * price + qty * price * (taxRate / 100), "Issued"⟩] := by
  have hval : ¬(qty ≤ 0 ∨ price < 0 ∨ taxRate < 0) := by
    push_neg
    exact ⟨hq, hpr, ht⟩
  have hdup : (db.invoices.any (fun i => i.invoiceNumber == number)) = false := by
    rw [List.any_eq_false]
    intro i hi
    simpa using hfresh i hi
  have hbal : entriesDebit
        [⟨ar, qty * price + qty * price * (taxRate / 100), 0,
          "Invoice " ++ number⟩,
         ⟨rev, 0, qty * price + qty * price * (taxRate / 100),
          "Invoice " ++ number ++ " - " ++ desc⟩]
      = entriesCredit
        [⟨ar, qty * price + qty * price * (taxRate / 100), 0,
          "Invoice " ++ number⟩,
         ⟨rev, 0, qty * price + qty * price * (taxRate / 100),
          "Invoice " ++ number ++ " - " ++ desc⟩] := by
    simp [entriesDebit, entriesCredit]
  have hrun : create_simple_sales_invoice db customerId invoiceDate dueDate
      desc qty price rev ar emp (some number) taxRate today = .ok
      { db with
        invoices := db.invoices ++
          [⟨db.invoices.length + 1, number, customerId, invoiceDate, dueDate,
            qty * price + qty * price * (taxRate / 100), 0,
            qty * price + qty * price * (taxRate / 100), "Issued"⟩]
        invoiceItems := db.invoiceItems ++
          [⟨db.invoices.length + 1, desc, qty, price, taxRate,
            qty * price * (taxRate / 100),
            qty * price + qty * price * (taxRate / 100), rev⟩]
        gl := db.gl ++ mkLines
          [⟨ar, qty * price + qty * price * (taxRate / 100), 0,
            "Invoice " ++ number⟩,
           ⟨rev, 0, qty * price + qty * price * (taxRate / 100),
            "Invoice " ++ number ++ " - " ++ desc⟩]
          "SalesInvoice" ("InvoiceID:" ++ toString (db.invoices.length + 1))
          today emp } := by
    simp only [create_simple_sales_invoice, if_neg hval, hdup,
      Bool.false_eq_true, if_false, generate_gl_entries, if_pos hbal]
  exact ⟨_, hrun, rfl⟩

/-- Witness: qty 5 at unit price 25.50 with tax rate 0 yields the header
with total = balance = 127.50 and status Issued. -/
theorem C7_create_invoice_fields_witness :
    ∃ db2, create_simple_sales_invoice emptyDB 1 0 30 "Widget" 5 (51/2) 40 3 9
        (some "INV-1") 0 0 = .ok db2 ∧
      db2.invoices = [⟨1, "INV-1", 1, 0, 30, 255/2, 0, 255/2, "Issued"⟩] := by
  obtain ⟨db2, h1, h2⟩ := C7_create_invoice_fields emptyDB 1 0 30 "Widget" 5
    (51/2) 40 3 9 "INV-1" 0 0 (by norm_num) (by norm_num) (by norm_num)
    (by simp [emptyDB])
  refine ⟨db2, h1, ?_⟩
  rw [h2]
  norm_num [emptyDB]

/-! ### Claim C8 -/

/-- Claim C8 as stated is refutable on the invoice side: the query
filters `Status IN ('Issued', 'Overdue')`, so a stored invoice with the
status string "Received" — outside Paid/Cancelled/Draft, with positive
balance — is not returned although the claim requires it. -/
theorem C8_counterexample :
    ∃ inv, inv ∈ dbC8.invoices ∧ inv.customerId = 1 ∧
      inv.status ≠ "Paid" ∧ inv.status ≠ "Cancelled" ∧ inv.status ≠ "Draft" ∧
      0 < inv.balance ∧ inv ∉ list_open_customer_invoices dbC8 1 := by
  refine ⟨⟨1, "INV-0001", 1, 0, 30, 10, 0, 10, "Received"⟩,
    by simp [dbC8], rfl, by decide, by decide, by decide, by norm_num, ?_⟩
  have hnil : list_open_customer_invoices dbC8 1 = [] := by
    simp [list_open_customer_invoices, dbC8, List.filter_cons, List.filter_nil]
  simp [hnil]

/-- Claim C8, amended: the vendor-bill list is exactly the bills with
status outside Paid/Cancelled/Draft and positive generated balance; the
customer-invoice list instead selects exactly status Issued or Overdue
(with positive balance); both are ordered by due date ascending. -/
theorem C8_list_open_characterization :
    (∀ (db : DB) (cid : Nat),
       (list_open_customer_invoices db cid).Perm
         (db.invoices.filter (fun i => decide (i.customerId = cid ∧
            (i.status = "Issued" ∨ i.status = "Overdue") ∧ 0 < i.balance))) ∧
       (list_open_customer_invoices db cid).Pairwise
         (fun a b => a.dueDate ≤ b.dueDate))
    ∧ (∀ (db : DB) (vid : Nat),
       (list_open_vendor_bills db vid).Perm
         (db.bills.filter (fun b => decide (b.vendorId = vid ∧
            ¬(b.status = "Paid" ∨ b.status = "Cancelled" ∨ b.status = "Draft")
            ∧ 0 < b.balance))) ∧
       (list_open_vendor_bills db vid).Pairwise
         (fun a b => a.dueDate ≤ b.dueDate)) := by
  constructor
  · intro db cid
    constructor
    · have hfe : db.invoices.filter (fun i =>
          i.customerId == cid
            && (i.status == "Issued" || i.status == "Overdue")
            && decide ((0 : ℚ) < i.balance))
          = db.invoices.filter (fun i => decide (i.customerId = cid ∧
              (i.status = "Issued" ∨ i.status = "Overdue") ∧ 0 < i.balance)) := by
        apply List.filter_congr
        intro x hx
        rw [Bool.eq_iff_iff]
        simp [and_assoc]
      simp only [list_open_customer_invoices]
      rw [← hfe] at *
      exact (List.mergeSort_perm _ _).trans (by rw [hfe])
    · have hs := @List.sorted_mergeSort Invoice
        (fun a b => decide (a.dueDate ≤ b.dueDate))
        (fun a b c hab hbc => by
          simp only [decide_eq_true_eq] at *
          omega)
        (fun a b => by
          simp only [Bool.or_eq_true, decide_eq_true_eq]
          exact Nat.le_total a.dueDate b.dueDate)
        (db.invoices.filter (fun i =>
          i.customerId == cid
            && (i.status == "Issued" || i.status == "Overdue")
            && decide ((0 : ℚ) < i.balance)))
      have himp := hs.imp (fun h => of_decide_eq_true h)
      simpa only [list_open_customer_invoices] using himp
  · intro db vid
    constructor
    · have hfe : db.bills.filter (fun b =>
          b.vendorId == vid
            && !(b.status == "Paid" || b.status == "Cancelled"
                  || b.status == "Draft")
            && decide ((0 : ℚ) < b.balance))
          = db.bills.filter (fun b => decide (b.vendorId = vid ∧
              ¬(b.status = "Paid" ∨ b.status = "Cancelled"
                 ∨ b.status = "Draft") ∧ 0 < b.balance)) := by
        apply List.filter_congr
        intro x hx
        rw [Bool.eq_iff_iff]
        simp [and_assoc, not_or]
      simp only [list_open_vendor_bills]
      exact (List.mergeSort_perm _ _).trans (by rw [hfe])
    · have hs := @List.sorted_mergeSort Bill
        (fun a b => decide (a.dueDate ≤ b.dueDate))
        (fun a b c hab hbc => by
          simp only [decide_eq_true_eq] at *
          omega)
        (fun a b => by
          simp only [Bool.or_eq_true, decide_eq_true_eq]
          exact Nat.le_total a.dueDate b.dueDate)
        (db.bills.filter (fun b =>
          b.vendorId == vid
            && !(b.status == "Paid" || b.status == "Cancelled"
                  || b.status == "Draft")
            && decide ((0 : ℚ) < b.balance)))
      have himp := hs.imp (fun h => of_decide_eq_true h)
      simpa only [list_open_vendor_bills] using himp


/-! ### Claim C9 -/

theorem debitSum_append (gl ls : List GLLine) (aid : Nat)
    (asOf : Option Nat) :
    debitSum (gl ++ ls) aid asOf
      = debitSum gl aid asOf + debitSum ls aid asOf := by
  simp [debitSum, linesFor, glAsOf, List.filter_append]

theorem creditSum_append (gl ls : List GLLine) (aid : Nat)
    (asOf : Option Nat) :
    creditSum (gl ++ ls) aid asOf
      = creditSum gl aid asOf + creditSum ls aid asOf := by
  simp [creditSum, linesFor, glAsOf, List.filter_append]

theorem debitSum_pair (e1 e2 : EntrySpec) (et ref : String)
    (today emp aid : Nat) :
    debitSum (mkLines [e1, e2] et ref today emp) aid none
      = (if e1.accountId = aid then e1.debit else 0)
        + (if e2.accountId = aid then e2.debit else 0) := by
  by_cases h1 : e1.accountId = aid <;> by_cases h2 : e2.accountId = aid <;>
    simp [debitSum, linesFor, glAsOf, dateOk, mkLines, List.filter_cons, h1, h2]

theorem creditSum_pair (e1 e2 : EntrySpec) (et ref : String)
    (today emp aid : Nat) :
    creditSum (mkLines [e1, e2] et ref today emp) aid none
      = (if e1.accountId = aid then e1.credit else 0)
        + (if e2.accountId = aid then e2.credit else 0) := by
  by_cases h1 : e1.accountId = aid <;> by_cases h2 : e2.accountId = aid <;>
    simp [creditSum, linesFor, glAsOf, dateOk, mkLines, List.filter_cons, h1, h2]

theorem findBank_bankAdd (banks : List BankAccount) (bid k : Nat) (d : ℚ) :
    (bankAdd banks bid d).find? (fun x => x.bankAccountId == k)
      = (banks.find? (fun x => x.bankAccountId == k)).map
          (fun x => if x.bankAccountId == bid then
            { x with currentBalance := x.currentBalance + d } else x) :=
  find?_map_key (·.bankAccountId) k _
    (fun x => by by_cases h : x.bankAccountId == bid <;> simp [h]) banks

theorem find?_bankAdd_ne (banks : List BankAccount) (bid k : Nat) (d : ℚ)
    (hk : k ≠ bid) :
    (bankAdd banks bid d).find? (fun x => x.bankAccountId == k)
      = banks.find? (fun x => x.bankAccountId == k) := by
  rw [findBank_bankAdd]
  cases hf : banks.find? (fun x => x.bankAccountId == k) with
  | none => rfl
  | some x =>
    have hx : x.bankAccountId = k := by simpa using List.find?_some hf
    simp [hx, hk]

theorem view_bank_after_bankAdd (db db2 : DB) (bid : Nat) (d : ℚ)
    (b : BankAccount) (hb : findBank db bid = some b)
    (hbanks : db2.banks = bankAdd db.banks bid d) :
    view_bank_account_balance db2 bid
      = view_bank_account_balance db bid + d := by
  have hb' : db.banks.find? (fun x => x.bankAccountId == bid) = some b := hb
  have hk := List.find?_some hb'
  have hfind2 : findBank db2 bid
      = some { b with currentBalance := b.currentBalance + d } := by
    show db2.banks.find? (fun x => x.bankAccountId == bid) = _
    rw [hbanks, findBank_bankAdd, hb']
    have hkeq : b.bankAccountId = bid := by simpa using hk
    simp [hkeq]
  simp [view_bank_account_balance, hfind2, hb]

theorem view_bank_after_double_bankAdd_first (db db2 : DB) (bidA bidB : Nat)
    (dA dB : ℚ) (b : BankAccount) (hbb : bidA ≠ bidB)
    (hb : findBank db bidA = some b)
    (hbanks : db2.banks = bankAdd (bankAdd db.banks bidA dA) bidB dB) :
    view_bank_account_balance db2 bidA
      = view_bank_account_balance db bidA + dA := by
  have hb' : db.banks.find? (fun x => x.bankAccountId == bidA) = some b := hb
  have hk := List.find?_some hb'
  have hfind2 : findBank db2 bidA
      = some { b with currentBalance := b.currentBalance + dA } := by
    show db2.banks.find? (fun x => x.bankAccountId == bidA) = _
    rw [hbanks, find?_bankAdd_ne _ _ _ _ hbb, findBank_bankAdd, hb']
    have hkeq : b.bankAccountId = bidA := by simpa using hk
    simp [hkeq]
  simp [view_bank_account_balance, hfind2, hb]

theorem view_bank_after_double_bankAdd_second (db db2 : DB) (bidA bidB : Nat)
    (dA dB : ℚ) (b : BankAccount) (hbb : bidA ≠ bidB)
    (hb : findBank db bidB = some b)
    (hbanks : db2.banks = bankAdd (bankAdd db.banks bidA dA) bidB dB) :
    view_bank_account_balance db2 bidB
      = view_bank_account_balance db bidB + dB := by
  have hb' : db.banks.find? (fun x => x.bankAccountId == bidB) = some b := hb
  have hk := List.find?_some hb'
  have hfind2 : findBank db2 bidB
      = some { b with currentBalance := b.currentBalance + dB } := by
    show db2.banks.find? (fun x => x.bankAccountId == bidB) = _
    rw [hbanks, findBank_bankAdd, find?_bankAdd_ne _ _ _ _ (Ne.symm hbb),
      hb']
    have hkeq : b.bankAccountId = bidB := by simpa using hk
    simp [hkeq]
  simp [view_bank_account_balance, hfind2, hb]

/-- Core preservation step shared by the cash-affecting operations: if
the cached bank balance moves by exactly the net debit the posted
two-line batch puts on the linked Debit-polarity cash account, the
cache/derived equality survives. -/
theorem bank_gl_step (db db2 : DB) (bid cash : Nat) (a : Account) (d : ℚ)
    (e1 e2 : EntrySpec) (et ref : String) (today emp : Nat)
    (ha : findAccount db cash = some a) (hD : a.balanceType = "Debit")
    (hacc : db2.accounts = db.accounts)
    (hcache : view_bank_account_balance db2 bid
        = view_bank_account_balance db bid + d)
    (hgl : db2.gl = db.gl ++ mkLines [e1, e2] et ref today emp)
    (hnet : (if e1.accountId = cash then e1.debit - e1.credit else 0)
          + (if e2.accountId = cash then e2.debit - e2.credit else 0) = d)
    (heq : view_bank_account_balance db bid
        = view_gl_account_balance db cash) :
    view_bank_account_balance db2 bid = view_gl_account_balance db2 cash := by
  have hfa2 : findAccount db2 cash = some a := by
    show db2.accounts.find? _ = some a
    rw [hacc]
    exact ha
  have hgl2 : view_gl_account_balance db2 cash
      = debitSum db2.gl cash none - creditSum db2.gl cash none := by
    simp [view_gl_account_balance, hfa2, hD]
  have hgl1 : view_gl_account_balance db cash
      = debitSum db.gl cash none - creditSum db.gl cash none := by
    simp [view_gl_account_balance, ha, hD]
  have h1 : (if e1.accountId = cash then e1.debit else 0)
      - (if e1.accountId = cash then e1.credit else 0)
      = (if e1.accountId = cash then e1.debit - e1.credit else 0) := by
    split_ifs <;> ring
  have h2 : (if e2.accountId = cash then e2.debit else 0)
      - (if e2.accountId = cash then e2.credit else 0)
      = (if e2.accountId = cash then e2.debit - e2.credit else 0) := by
    split_ifs <;> ring
  rw [hcache, heq, hgl1, hgl2, hgl, debitSum_append, creditSum_append,
    debitSum_pair, creditSum_pair]
  linarith

/-- Claim C9 as stated is refutable: when the linked cash account has
Credit polarity, a successful cash receipt moves the cached and the
derived balance in opposite directions. -/
theorem C9_counterexample :
    view_bank_account_balance dbC9 1 = view_gl_account_balance dbC9 7 ∧
    ∃ db2, record_simple_cash_receipt dbC9 0 10 "interest" 1 7 8 9 "r" 0
        = .ok db2 ∧
      view_bank_account_balance db2 1 ≠ view_gl_account_balance db2 7 := by
  have hCD : (("Credit" : String) = "Debit") ↔ False :=
    iff_false_intro (by decide)
  constructor
  · norm_num [view_bank_account_balance, view_gl_account_balance, findBank,
      findAccount, dbC9, emptyDB, debitSum, creditSum, linesFor, glAsOf,
      dateOk, hCD]
  · have hbal : entriesDebit
        [⟨7, 10, 0, "Cash Receipt: " ++ "interest"⟩,
         ⟨8, 0, 10, "Cash Receipt: " ++ "interest"⟩]
        = entriesCredit
        [⟨7, 10, 0, "Cash Receipt: " ++ "interest"⟩,
         ⟨8, 0, 10, "Cash Receipt: " ++ "interest"⟩] := by
      simp [entriesDebit, entriesCredit]
    have hrun : record_simple_cash_receipt dbC9 0 10 "interest" 1 7 8 9 "r" 0
        = .ok
        { dbC9 with
          cashTxs := dbC9.cashTxs ++
            [⟨dbC9.cashTxs.length + 1, 0, 1, "Deposit", 10, "r", 8⟩]
          banks := bankAdd dbC9.banks 1 10
          gl := dbC9.gl ++ mkLines
            [⟨7, 10, 0, "Cash Receipt: " ++ "interest"⟩,
             ⟨8, 0, 10, "Cash Receipt: " ++ "interest"⟩]
            "CashReceipt"
            ("CashTransID:" ++ toString (dbC9.cashTxs.length + 1)) 0 9 } := by
      simp only [record_simple_cash_receipt, generate_gl_entries,
        if_pos hbal]
      norm_num
    refine ⟨_, hrun, ?_⟩
    norm_num [view_bank_account_balance, view_gl_account_balance, findBank,
      findAccount, dbC9, emptyDB, bankAdd, debitSum, creditSum, linesFor,
      glAsOf, dateOk, mkLines, List.filter_cons, List.filter_nil, hCD]

/-- Claim C9, amended: across a cash receipt, a cash disbursement, a
bank transfer, a customer payment and a vendor payment — successful or
rolled back — the cached bank balance stays equal to the derived balance
of the operation's linked cash account, provided that account exists
with Debit polarity and differs from the operation's counter account. -/
theorem C9_bank_cache_consistency :
    (∀ (db : DB) (txDate : Nat) (amount : ℚ) (desc : String)
       (bid cash income emp : Nat) (ref : String) (today : Nat)
       (a : Account) (b : BankAccount),
       findBank db bid = some b → findAccount db cash = some a →
       a.balanceType = "Debit" → income ≠ cash →
       view_bank_account_balance db bid = view_gl_account_balance db cash →
       view_bank_account_balance
           (resultState db (record_simple_cash_receipt db txDate amount desc
             bid cash income emp ref today)) bid
         = view_gl_account_balance
           (resultState db (record_simple_cash_receipt db txDate amount desc
             bid cash income emp ref today)) cash)
    ∧ (∀ (db : DB) (txDate : Nat) (amount : ℚ) (desc : String)
       (bid cash expAcct emp : Nat) (ref : String) (today : Nat)
       (a : Account) (b : BankAccount),
       findBank db bid = some b → findAccount db cash = some a →
       a.balanceType = "Debit" → expAcct ≠ cash →
       view_bank_account_balance db bid = view_gl_account_balance db cash →
       view_bank_account_balance
           (resultState db (record_simple_cash_disbursement db txDate amount
             desc bid cash expAcct emp ref today)) bid
         = view_gl_account_balance
           (resultState db (record_simple_cash_disbursement db txDate amount
             desc bid cash expAcct emp ref today)) cash)
    ∧ (∀ (db : DB) (txDate : Nat) (amount : ℚ)
       (srcBank srcCash tgtBank tgtCash : Nat) (desc : String) (emp : Nat)
       (ref : String) (today : Nat) (a1 a2 : Account) (b1 b2 : BankAccount),
       findBank db srcBank = some b1 → findBank db tgtBank = some b2 →
       findAccount db srcCash = some a1 → findAccount db tgtCash = some a2 →
       a1.balanceType = "Debit" → a2.balanceType = "Debit" →
       view_bank_account_balance db srcBank
         = view_gl_account_balance db srcCash →
       view_bank_account_balance db tgtBank
         = view_gl_account_balance db tgtCash →
       (view_bank_account_balance
           (resultState db (record_bank_transfer db txDate amount srcBank
             srcCash tgtBank tgtCash desc emp ref today)) srcBank
         = view_gl_account_balance
           (resultState db (record_bank_transfer db txDate amount srcBank
             srcCash tgtBank tgtCash desc emp ref today)) srcCash) ∧
       (view_bank_account_balance
           (resultState db (record_bank_transfer db txDate amount srcBank
             srcCash tgtBank tgtCash desc emp ref today)) tgtBank
         = view_gl_account_balance
           (resultState db (record_bank_transfer db txDate amount srcBank
             srcCash tgtBank tgtCash desc emp ref today)) tgtCash))
    ∧ (∀ (db : DB) (customerId payDate : Nat) (amount : ℚ) (method : String)
       (bid cash ar emp : Nat) (ref : String) (today : Nat)
       (a : Account) (b : BankAccount),
       findBank db bid = some b → findAccount db cash = some a →
       a.balanceType = "Debit" → ar ≠ cash →
       view_bank_account_balance db bid = view_gl_account_balance db cash →
       view_bank_account_balance
           (resultState db (record_simple_customer_payment db customerId
             payDate amount method bid cash ar emp ref today)) bid
         = view_gl_account_balance
           (resultState db (record_simple_customer_payment db customerId
             payDate amount method bid cash ar emp ref today)) cash)
    ∧ (∀ (db : DB) (vendorId payDate : Nat) (amount : ℚ) (method : String)
       (bid cash ap emp : Nat) (ref : String) (today : Nat)
       (a : Account) (b : BankAccount),
       findBank db bid = some b → findAccount db cash = some a →
       a.balanceType = "Debit" → ap ≠ cash →
       view_bank_account_balance db bid = view_gl_account_balance db cash →
       view_bank_account_balance
           (resultState db (record_simple_vendor_payment db vendorId payDate
             amount method bid cash ap emp ref today)) bid
         = view_gl_account_balance
           (resultState db (record_simple_vendor_payment db vendorId payDate
             amount method bid cash ap emp ref today)) cash) := by
  refine ⟨?_, ?_, ?_, ?_, ?_⟩
  · intro db txDate amount desc bid cash income emp ref today a b hb ha hD
      hne heq
    by_cases hamt : amount ≤ 0
    · simp only [record_simple_cash_receipt, if_pos hamt]
      exact heq
    · have hbal : entriesDebit
          [⟨cash, amount, 0, "Cash Receipt: " ++ desc⟩,
           ⟨income, 0, amount, "Cash Receipt: " ++ desc⟩]
          = entriesCredit
          [⟨cash, amount, 0, "Cash Receipt: " ++ desc⟩,
           ⟨income, 0, amount, "Cash Receipt: " ++ desc⟩] := by
        simp [entriesDebit, entriesCredit]
      have hrun : record_simple_cash_receipt db txDate amount desc bid cash
          income emp ref today = .ok
          { db with
            cashTxs := db.cashTxs ++
              [⟨db.cashTxs.length + 1, txDate, bid, "Deposit", amount, ref,
                income⟩]
            banks := bankAdd db.banks bid amount
            gl := db.gl ++ mkLines
              [⟨cash, amount, 0, "Cash Receipt: " ++ desc⟩,
               ⟨income, 0, amount, "Cash Receipt: " ++ desc⟩]
              "CashReceipt"
              ("CashTransID:" ++ toString (db.cashTxs.length + 1))
              today emp } := by
        simp only [record_simple_cash_receipt, if_neg hamt,
          generate_gl_entries, if_pos hbal]
      rw [hrun]
      refine bank_gl_step db _ bid cash a amount _ _ _ _ _ _ ha hD rfl
        (view_bank_after_bankAdd db _ bid amount b hb rfl) rfl ?_ heq
      simp [hne]
  · intro db txDate amount desc bid cash expAcct emp ref today a b hb ha hD
      hne heq
    by_cases hamt : amount ≤ 0
    · simp only [record_simple_cash_disbursement, if_pos hamt]
      exact heq
    · have hbal : entriesDebit
          [⟨expAcct, amount, 0, "Cash Disbursement: " ++ desc⟩,
           ⟨cash, 0, amount, "Cash Disbursement: " ++ desc⟩]
          = entriesCredit
          [⟨expAcct, amount, 0, "Cash Disbursement: " ++ desc⟩,
           ⟨cash, 0, amount, "Cash Disbursement: " ++ desc⟩] := by
        simp [entriesDebit, entriesCredit]
      have hrun : record_simple_cash_disbursement db txDate amount desc bid
          cash expAcct emp ref today = .ok
          { db with
            cashTxs := db.cashTxs ++
              [⟨db.cashTxs.length + 1, txDate, bid, "Withdrawal", amount,
                ref, expAcct⟩]
            banks := bankAdd db.banks bid (-amount)
            gl := db.gl ++ mkLines
              [⟨expAcct, amount, 0, "Cash Disbursement: " ++ desc⟩,
               ⟨cash, 0, amount, "Cash Disbursement: " ++ desc⟩]
              "CashDisbursement"
              ("CashTransID:" ++ toString (db.cashTxs.length + 1))
              today emp } := by
        simp only [record_simple_cash_disbursement, if_neg hamt,
          generate_gl_entries, if_pos hbal]
      rw [hrun]
      refine bank_gl_step db _ bid cash a (-amount) _ _ _ _ _ _ ha hD rfl
        (view_bank_after_bankAdd db _ bid (-amount) b hb rfl) rfl ?_ heq
      simp [hne]
  · intro db txDate amount srcBank srcCash tgtBank tgtCash desc emp ref
      today a1 a2 b1 b2 hb1 hb2 ha1 ha2 hD1 hD2 heq1 heq2
    by_cases hamt : amount ≤ 0
    · simp only [record_bank_transfer, if_pos hamt]
      exact ⟨heq1, heq2⟩
    · by_cases hBB : srcBank = tgtBank
      · simp only [record_bank_transfer, if_neg hamt, if_pos hBB]
        exact ⟨heq1, heq2⟩
      · by_cases hCC : srcCash = tgtCash
        · simp only [record_bank_transfer, if_neg hamt, if_neg hBB,
            if_pos hCC]
          exact ⟨heq1, heq2⟩
        · have hbal : entriesDebit
              [⟨tgtCash, amount, 0, "Bank Transfer: " ++ desc⟩,
               ⟨srcCash, 0, amount, "Bank Transfer: " ++ desc⟩]
              = entriesCredit
              [⟨tgtCash, amount, 0, "Bank Transfer: " ++ desc⟩,
               ⟨srcCash, 0, amount, "Bank Transfer: " ++ desc⟩] := by
            simp [entriesDebit, entriesCredit]
          have hrun : record_bank_transfer db txDate amount srcBank srcCash
              tgtBank tgtCash desc emp ref today = .ok
              { db with
                cashTxs := db.cashTxs ++
                  [⟨db.cashTxs.length + 1, txDate, srcBank, "Transfer",
                    amount, ref, tgtCash⟩,
                   ⟨db.cashTxs.length + 2, txDate, tgtBank, "Transfer",
                    amount, ref, srcCash⟩]
                banks := bankAdd (bankAdd db.banks srcBank (-amount))
                  tgtBank amount
                gl := db.gl ++ mkLines
                  [⟨tgtCash, amount, 0, "Bank Transfer: " ++ desc⟩,
                   ⟨srcCash, 0, amount, "Bank Transfer: " ++ desc⟩]
                  "BankTransfer"
                  ("Transfer IDs:" ++ toString (db.cashTxs.length + 1) ++ ","
                    ++ toString (db.cashTxs.length + 2)) today emp } := by
            simp only [record_bank_transfer, if_neg hamt, if_neg hBB,
              if_neg hCC, generate_gl_entries, if_pos hbal]
          rw [hrun]
          constructor
          · refine bank_gl_step db _ srcBank srcCash a1 (-amount) _ _ _ _ _ _
              ha1 hD1 rfl
              (view_bank_after_double_bankAdd_first db _ srcBank tgtBank
                (-amount) amount b1 hBB hb1 rfl) rfl ?_ heq1
            simp [hCC, Ne.symm hCC]
          · refine bank_gl_step db _ tgtBank tgtCash a2 amount _ _ _ _ _ _
              ha2 hD2 rfl
              (view_bank_after_double_bankAdd_second db _ srcBank tgtBank
                (-amount) amount b2 hBB hb2 rfl) rfl ?_ heq2
            simp [hCC, Ne.symm hCC]
  · intro db customerId payDate amount method bid cash ar emp ref today a b
      hb ha hD hne heq
    by_cases hamt : amount ≤ 0
    · simp only [record_simple_customer_payment, if_pos hamt]
      exact heq
    · have hbal : entriesDebit
          [⟨cash, amount, 0, "Customer Payment " ++ ref⟩,
           ⟨ar, 0, amount, "Customer Payment " ++ ref⟩]
          = entriesCredit
          [⟨cash, amount, 0, "Customer Payment " ++ ref⟩,
           ⟨ar, 0, amount, "Customer Payment " ++ ref⟩] := by
        simp [entriesDebit, entriesCredit]
      have hrun : record_simple_customer_payment db customerId payDate amount
          method bid cash ar emp ref today = .ok
          { db with
            custPayments := db.custPayments ++
              [⟨db.custPayments.length + 1, customerId, payDate, amount,
                method, ref, bid⟩]
            banks := bankAdd db.banks bid amount
            gl := db.gl ++ mkLines
              [⟨cash, amount, 0, "Customer Payment " ++ ref⟩,
               ⟨ar, 0, amount, "Customer Payment " ++ ref⟩]
              "CustomerPayment"
              ("CustPmtID:" ++ toString (db.custPayments.length + 1))
              today emp } := by
        simp only [record_simple_customer_payment, if_neg hamt,
          generate_gl_entries, if_pos hbal]
      rw [hrun]
      refine bank_gl_step db _ bid cash a amount _ _ _ _ _ _ ha hD rfl
        (view_bank_after_bankAdd db _ bid amount b hb rfl) rfl ?_ heq
      simp [hne]
  · intro db vendorId payDate amount method bid cash ap emp ref today a b
      hb ha hD hne heq
    by_cases hamt : amount ≤ 0
    · simp only [record_simple_vendor_payment, if_pos hamt]
      exact heq
    · have hbal : entriesDebit
          [⟨ap, amount, 0, "Vendor Payment " ++ ref⟩,
           ⟨cash, 0, amount, "Vendor Payment " ++ ref⟩]
          = entriesCredit
          [⟨ap, amount, 0, "Vendor Payment " ++ ref⟩,
           ⟨cash, 0, amount, "Vendor Payment " ++ ref⟩] := by
        simp [entriesDebit, entriesCredit]
      have hrun : record_simple_vendor_payment db vendorId payDate amount
          method bid cash ap emp ref today = .ok
          { db with
            vendPayments := db.vendPayments ++
              [⟨db.vendPayments.length + 1, vendorId, payDate, amount,
                method, ref, bid⟩]
            banks := bankAdd db.banks bid (-amount)
            gl := db.gl ++ mkLines
              [⟨ap, amount, 0, "Vendor Payment " ++ ref⟩,
               ⟨cash, 0, amount, "Vendor Payment " ++ ref⟩]
              "VendorPayment"
              ("VendPmtID:" ++ toString (db.vendPayments.length + 1))
              today emp } := by
        simp only [record_simple_vendor_payment, if_neg hamt,
          generate_gl_entries, if_pos hbal]
      rw [hrun]
      refine bank_gl_step db _ bid cash a (-amount) _ _ _ _ _ _ ha hD rfl
        (view_bank_after_bankAdd db _ bid (-amount) b hb rfl) rfl ?_ heq
      simp [hne]

/-- Witness: a cash receipt of 10 into bank 1 whose linked cash account
7 has Debit polarity keeps cache and derived balance equal. -/
theorem C9_bank_cache_consistency_witness :
    view_bank_account_balance
        (resultState dbW9 (record_simple_cash_receipt dbW9 0 10 "interest"
          1 7 8 9 "r" 0)) 1
      = view_gl_account_balance
        (resultState dbW9 (record_simple_cash_receipt dbW9 0 10 "interest"
          1 7 8 9 "r" 0)) 7 :=
  C9_bank_cache_consistency.1 dbW9 0 10 "interest" 1 7 8 9 "r" 0
    ⟨7, "1000", "Cash in Bank", "Debit", true⟩ ⟨1, 0⟩ rfl rfl rfl
    (by decide)
    (by norm_num [view_bank_account_balance, view_gl_account_balance,
      findBank, findAccount, dbW9, emptyDB, debitSum, creditSum, linesFor,
      glAsOf, dateOk])


/-! ### Claim C10 -/

/-- Claim C10: applying a payment stores no allocation record and never
mutates the payment row, so the same payment can settle two distinct
open documents one after the other, leaving both Paid. -/
theorem C10_payment_reusable :
    (∀ (db : DB) (pid i1 i2 : Nat) (p : Payment) (d1 d2 : Invoice),
       findCustPayment db pid = some p →
       findInvoice db i1 = some d1 → findInvoice db i2 = some d2 →
       i1 ≠ i2 →
       d1.status ≠ "Paid" → 0 < d1.balance → d1.balance ≤ p.amount →
       d2.status ≠ "Paid" → 0 < d2.balance → d2.balance ≤ p.amount →
       ∃ db1 db2, apply_full_payment_to_invoice db pid i1 = .ok db1 ∧
         apply_full_payment_to_invoice db1 pid i2 = .ok db2 ∧
         (∃ e1, findInvoice db2 i1 = some e1 ∧ e1.status = "Paid") ∧
         (∃ e2, findInvoice db2 i2 = some e2 ∧ e2.status = "Paid"))
    ∧ (∀ (db : DB) (pid k1 k2 : Nat) (p : Payment) (c1 c2 : Bill),
       findVendPayment db pid = some p →
       findBill db k1 = some c1 → findBill db k2 = some c2 →
       k1 ≠ k2 →
       c1.status ≠ "Paid" → 0 < c1.balance → c1.balance ≤ p.amount →
       c2.status ≠ "Paid" → 0 < c2.balance → c2.balance ≤ p.amount →
       ∃ db1 db2, apply_full_payment_to_bill db pid k1 = .ok db1 ∧
         apply_full_payment_to_bill db1 pid k2 = .ok db2 ∧
         (∃ e1, findBill db2 k1 = some e1 ∧ e1.status = "Paid") ∧
         (∃ e2, findBill db2 k2 = some e2 ∧ e2.status = "Paid")) := by
  constructor
  · intro db pid i1 i2 p d1 d2 hp h1 h2 h12 hst1 hb1 hle1 hst2 hb2 hle2
    have hid1 : d1.invoiceId = i1 := findInvoice_id db i1 d1 h1
    have hid2 : d2.invoiceId = i2 := findInvoice_id db i2 d2 h2
    have happ1 := apply_invoice_ok db pid i1 p d1 hp h1 hst1 hb1 hle1
    have hp1 : findCustPayment
        { db with invoices := db.invoices.map (payOffInvoice i1) } pid
        = some p := hp
    have h2' : findInvoice
        { db with invoices := db.invoices.map (payOffInvoice i1) } i2
        = some d2 := by
      rw [findInvoice_map db (payOffInvoice i1) (payOffInvoice_id i1) i2, h2]
      simp [payOffInvoice, hid2, Ne.symm h12]
    have happ2 := apply_invoice_ok _ pid i2 p d2 hp1 h2' hst2 hb2 hle2
    refine ⟨_, _, happ1, happ2, ?_, ?_⟩
    · rw [findInvoice_map _ (payOffInvoice i2) (payOffInvoice_id i2) i1,
        findInvoice_map db (payOffInvoice i1) (payOffInvoice_id i1) i1, h1]
      refine ⟨_, rfl, ?_⟩
      have hA : payOffInvoice i1 d1
          = { d1 with
              paidAmount := d1.totalAmount
              balance := 0
              status := "Paid" } := by
        simp [payOffInvoice, hid1]
      simp [hA, payOffInvoice, hid1, h12]
    · rw [findInvoice_map _ (payOffInvoice i2) (payOffInvoice_id i2) i2,
        findInvoice_map db (payOffInvoice i1) (payOffInvoice_id i1) i2, h2]
      refine ⟨_, rfl, ?_⟩
      have hA : payOffInvoice i1 d2 = d2 := by
        simp [payOffInvoice, hid2, Ne.symm h12]
      rw [hA]
      simp [payOffInvoice, hid2]
  · intro db pid k1 k2 p c1 c2 hp h1 h2 h12 hst1 hb1 hle1 hst2 hb2 hle2
    have hid1 : c1.billId = k1 := findBill_id db k1 c1 h1
    have hid2 : c2.billId = k2 := findBill_id db k2 c2 h2
    have happ1 := apply_bill_ok db pid k1 p c1 hp h1 hst1 hb1 hle1
    have hp1 : findVendPayment
        { db with bills := db.bills.map (payOffBill k1) } pid = some p := hp
    have h2' : findBill
        { db with bills := db.bills.map (payOffBill k1) } k2 = some c2 := by
      rw [findBill_map db (payOffBill k1) (payOffBill_id k1) k2, h2]
      simp [payOffBill, hid2, Ne.symm h12]
    have hbal2' : 0 < c2.balance := hb2
    have happ2 := apply_bill_ok _ pid k2 p c2 hp1 h2' hst2 hbal2' hle2
    refine ⟨_, _, happ1, happ2, ?_, ?_⟩
    · rw [findBill_map _ (payOffBill k2) (payOffBill_id k2) k1,
        findBill_map db (payOffBill k1) (payOffBill_id k1) k1, h1]
      refine ⟨_, rfl, ?_⟩
      have hA : payOffBill k1 c1
          = { c1 with paidAmount := c1.totalAmount, status := "Paid" } := by
        simp [payOffBill, hid1]
      simp [hA, payOffBill, hid1, h12]
    · rw [findBill_map _ (payOffBill k2) (payOffBill_id k2) k2,
        findBill_map db (payOffBill k1) (payOffBill_id k1) k2, h2]
      refine ⟨_, rfl, ?_⟩
      have hA : payOffBill k1 c2 = c2 := by
        simp [payOffBill, hid2, Ne.symm h12]
      rw [hA]
      simp [payOffBill, hid2]

/-- Witness: one payment of 100 settles two open invoices (40 and 30)
in sequence, and likewise two bills. -/
theorem C10_payment_reusable_witness :
    (∃ db1 db2, apply_full_payment_to_invoice dbW10 1 1 = .ok db1 ∧
       apply_full_payment_to_invoice db1 1 2 = .ok db2 ∧
       (∃ e1, findInvoice db2 1 = some e1 ∧ e1.status = "Paid") ∧
       (∃ e2, findInvoice db2 2 = some e2 ∧ e2.status = "Paid")) ∧
    (∃ db1 db2, apply_full_payment_to_bill dbW10 1 1 = .ok db1 ∧
       apply_full_payment_to_bill db1 1 2 = .ok db2 ∧
       (∃ e1, findBill db2 1 = some e1 ∧ e1.status = "Paid") ∧
       (∃ e2, findBill db2 2 = some e2 ∧ e2.status = "Paid")) :=
  ⟨C10_payment_reusable.1 dbW10 1 1 2 ⟨1, 1, 0, 100, "EFT", "rc", 1⟩
      ⟨1, "INV-0001", 1, 0, 10, 40, 0, 40, "Issued"⟩
      ⟨2, "INV-0002", 1, 0, 20, 30, 0, 30, "Issued"⟩
      rfl rfl rfl (by decide) (by decide) (by norm_num) (by norm_num)
      (by decide) (by norm_num) (by norm_num),
   C10_payment_reusable.2 dbW10 1 1 2 ⟨1, 1, 0, 100, "EFT", "rv", 1⟩
      ⟨1, "B-1", 1, 0, 10, 40, 0, "Received"⟩
      ⟨2, "B-2", 1, 0, 20, 30, 0, "Received"⟩
      rfl rfl rfl (by decide) (by decide) (by norm_num [Bill.balance])
      (by norm_num [Bill.balance]) (by decide) (by norm_num [Bill.balance])
      (by norm_num [Bill.balance])⟩

end FinAgent
